import Mathlib

set_option autoImplicit false

/-!
Shallow embedding of the AlwaysGreen Teams presence client
(`src/utils/teams.py`).  Every external effect (HTTP call, MSAL library
call, the clock) is supplied through an `Oracle` record; Python exceptions
are modelled with an explicit `PyErr` error channel, and every network
request a run performs is recorded in a trace of `NetCall`s so that
claims about "no further network call" can be stated.
-/

deriving instance DecidableEq for Except

/-- Python exceptions that the code under analysis can raise. -/
inductive PyErr where
  | typeError
  | indexError
  | attributeError
  | unboundLocal
  | requestError
  | jsonError
deriving DecidableEq, Repr

/-- A Python value that is either `None`, `False`, or a string.  The token
fields of the `Teams` object (and several return values) range over exactly
these three shapes. -/
inductive PyStr where
  | pynone
  | pyfalse
  | pystr (s : String)
deriving DecidableEq, Repr

/-- Python truthiness for a `PyStr`: `None` and `False` are falsy, a string
is truthy iff it is non-empty. -/
def PyStr.truthy : PyStr → Bool
  | .pystr s => !(s == "")
  | _ => false

/-- Python `str(...)` rendering as used by the f-string building the
authorization header. -/
def PyStr.render : PyStr → String
  | .pynone => "None"
  | .pyfalse => "False"
  | .pystr s => s

/-- The value of `self.account_type_cache` and of the `account_type`
property: `None`, `False`, `1` (MSAccount / personal) or `2` (OrgId /
organizational). -/
inductive AcctTy where
  | one
  | two
  | noneV
  | falseV
deriving DecidableEq, Repr

/-- Python truthiness of the `account_type` value. -/
def AcctTy.truthy : AcctTy → Bool
  | .one => true
  | .two => true
  | _ => false

/-- Outcome of an HTTP request made through `requests`: either the
transport layer fails (raising a request exception), or a response with a
status code and a body arrives. -/
inductive HttpResult (β : Type) where
  | transportError
  | response (status : Nat) (body : β)
deriving DecidableEq, Repr

/-- Body of the account-classification (idp) response, as seen through
`response.json()` and the subsequent dict access: parsing can fail, the
parsed JSON can be falsy, or it is a dict whose `account` key is absent or
holds a string. -/
inductive IdpBody where
  | malformed
  | falsyJson
  | obj (account : Option String)
deriving DecidableEq, Repr

/-- Body of the federation-provider (tenant lookup) response. -/
inductive FedBody where
  | malformed
  | fedObj (tenantId : Option String)
deriving DecidableEq, Repr

/-- Body of the authz (skype-token broker) response: either malformed, or
a dict with optional `skypeToken` (itself a dict with an optional
`skypetoken` entry) and optional `tokens` (a dict with an optional
`skypeToken` entry). -/
inductive AuthzBody where
  | malformed
  | authzObj (skypeToken : Option (Option String)) (tokens : Option (Option String))
deriving DecidableEq, Repr

/-- A token response dict returned by the MSAL client (login, refresh or
silent acquisition).  The dict's truthiness is modelled by wrapping it in
`Option` at the use sites; a present dict may still lack any of the three
interesting keys (as MSAL error responses do). -/
structure MsalAcct where
  access_token : Option String
  refresh_token : Option String
  expires_in : Option Int
deriving DecidableEq, Repr

/-- Network / external-library requests the client can issue, recorded in
order.  The presence PUT records the authorization header value and the
host it is sent to. -/
inductive NetCall where
  | idpGet
  | fedGet
  | msalCred
  | msalDeviceInit
  | msalDevicePoll
  | msalRefresh
  | msalSilent
  | authzPost
  | presencePutCall (auth : String) (host : String)
deriving DecidableEq, Repr

/-- The `authentication_metadata` dictionary: the hardcoded personal
profile, the organizational profile carrying the resolved tenant, or the
empty dict. -/
inductive AuthMeta where
  | personalMeta
  | orgMeta (tenant : PyStr)
  | emptyMeta
deriving DecidableEq, Repr

/-- Python truthiness of the metadata dict (empty dict is falsy). -/
def AuthMeta.truthy : AuthMeta → Bool
  | .emptyMeta => false
  | _ => true

/-- The mutable state of a `Teams` object (`__init__`), minus the inert
`requests.Session` handle.  `client_cache` stores the authentication
metadata the `PublicClientApplication` was built from (the handle itself
carries no further modelled state). -/
structure Teams where
  email : String
  password : String
  account_type_cache : AcctTy
  client_cache : Option AuthMeta
  silent_token_cache : PyStr
  need_login : Bool
  access_token : PyStr
  refresh_token : PyStr
  access_token_expiry : Option Int
deriving DecidableEq, Repr

/-- Responses of the external world for one top-level call: `now` is the
clock, the remaining fields are the replies of each endpoint / MSAL
operation (an endpoint queried twice in one call answers the same). -/
structure Oracle where
  now : Int
  idp : HttpResult IdpBody
  fed : HttpResult FedBody
  logonCred : Option MsalAcct
  deviceFlow : Option Unit
  logonDevice : Option MsalAcct
  refreshResp : Option MsalAcct
  accounts : List Unit
  silentResp : Option MsalAcct
  authz : HttpResult AuthzBody
  presencePut : HttpResult Unit
deriving DecidableEq, Repr

/-- Result of running an embedded method: the network calls it issued (in
order), the state of the `Teams` object afterwards (mutations before a
raise persist), and either a value or the exception that escaped. -/
structure Res (α : Type) where
  calls : List NetCall
  st : Teams
  out : Except PyErr α
deriving DecidableEq, Repr

/-- The effect monad of the embedding: reader access to the oracle, state
over `Teams`, a trace of network calls, and Python exceptions. -/
def M (α : Type) : Type := Oracle → Teams → Res α

/-- Monadic return: no calls, state unchanged. -/
def Mpure {α : Type} (a : α) : M α := fun _ t => ⟨[], t, .ok a⟩

/-- Monadic sequencing: propagate exceptions, thread the state, append the
traces. -/
def Mbind {α β : Type} (m : M α) (f : α → M β) : M β := fun o t =>
  match m o t with
  | ⟨cs, st, .error e⟩ => ⟨cs, st, .error e⟩
  | ⟨cs, st, .ok a⟩ => ⟨cs ++ (f a o st).calls, (f a o st).st, (f a o st).out⟩

instance : Monad M where
  pure := Mpure
  bind := Mbind

theorem bindM_def {α β : Type} (m : M α) (f : α → M β) : m >>= f = Mbind m f := rfl

theorem pureM_def {α : Type} (a : α) : (pure a : M α) = Mpure a := rfl

/-- Raise a Python exception. -/
def raiseM {α : Type} (e : PyErr) : M α := fun _ t => ⟨[], t, .error e⟩

/-- Record one outgoing network / library request. -/
def callNet (c : NetCall) : M Unit := fun _ t => ⟨[c], t, .ok ()⟩

/-- Read the current object state. -/
def getTeams : M Teams := fun _ t => ⟨[], t, .ok t⟩

/-- Overwrite the object state. -/
def setTeams (t' : Teams) : M Unit := fun _ _ => ⟨[], t', .ok ()⟩

/-- Read the oracle. -/
def askOracle : M Oracle := fun o t => ⟨[], t, .ok o⟩

/-- Does the character list `n` occur at the head of `h`? -/
def leadMatch : List Char → List Char → Bool
  | [], _ => true
  | _ :: _, [] => false
  | a :: as, b :: bs => a == b && leadMatch as bs

/-- Does the character list `n` occur anywhere inside `h`? -/
def subMatch (n : List Char) : List Char → Bool
  | [] => n.isEmpty
  | b :: bs => leadMatch n (b :: bs) || subMatch n bs

/-- Python `needle in hay` on strings (substring containment). -/
def hasSubstr (needle hay : String) : Bool := subMatch needle.data hay.data

/-- Convert a `dict.get(key, False)` result to the stored Python value. -/
def optToPy : Option String → PyStr
  | some s => .pystr s
  | none => .pyfalse

/-- `Teams.__init__(email, password)`. -/
def initTeams (email password : String) : Teams :=
  ⟨email, password, .noneV, none, .pynone, true, .pynone, .pynone, none⟩

/-- The `account_type` property: cache hit, else GET the idp endpoint; an
ok (< 400) response with a truthy JSON dict and a truthy `account` field
classifies `"MSAccount"` as 1 and any value containing `"OrgId"` as 2,
returning the (possibly unchanged) cache; every other completed shape
returns `False`; a transport failure or malformed body raises. -/
def account_type : M AcctTy := do
  let t ← getTeams
  if t.account_type_cache.truthy then
    pure t.account_type_cache
  else do
    callNet .idpGet
    let o ← askOracle
    match o.idp with
    | .transportError => raiseM .requestError
    | .response status body =>
      if status < 400 then
        match body with
        | .malformed => raiseM .jsonError
        | .falsyJson => pure .falseV
        | .obj none => pure .falseV
        | .obj (some s) =>
          if s == "" then pure .falseV
          else do
            let newCache :=
              if s == "MSAccount" then AcctTy.one
              else if hasSubstr "OrgId" s then AcctTy.two
              else t.account_type_cache
            setTeams { t with account_type_cache := newCache }
            pure newCache
      else pure .falseV

/-- The `tenant_id` property: when the email contains `@`, GET the
federation provider; an ok response yields its `tenantId` field or
`False`, a non-ok response yields `False`, a malformed body raises. -/
def tenant_id : M PyStr := do
  let t ← getTeams
  if t.email.data.contains '@' then do
    callNet .fedGet
    let o ← askOracle
    match o.fed with
    | .transportError => raiseM .requestError
    | .response status body =>
      if status < 400 then
        match body with
        | .malformed => raiseM .jsonError
        | .fedObj tid => pure (optToPy tid)
      else pure .pyfalse
  else pure .pyfalse

/-- The `authentication_metadata` property: match on `account_type`. -/
def authentication_metadata : M AuthMeta := do
  let a ← account_type
  match a with
  | .one => pure .personalMeta
  | .two => do
    let tid ← tenant_id
    pure (.orgMeta tid)
  | _ => pure .emptyMeta

/-- The `client` property: cache hit returns the cached pair, otherwise a
truthy metadata dict builds and caches the client pair; falsy metadata
returns `False` (modelled as `none`). -/
def client : M (Option AuthMeta) := do
  let t ← getTeams
  match t.client_cache with
  | some c => pure (some c)
  | none => do
    let meta ← authentication_metadata
    if meta.truthy then do
      let t' ← getTeams
      setTeams { t' with client_cache := some meta }
      pure (some meta)
    else pure none

/-- The statement `auth_metadata, client = self.client`: unpacking the
`False` returned for an unknown account raises a `TypeError`. -/
def clientUnpack : M AuthMeta := do
  let c ← client
  match c with
  | some meta => pure meta
  | none => raiseM .typeError

/-- The `is_token_expired` property, exactly as written in the source:
`int(time.time()) < self.access_token_expiry`; comparing against a still
unset (`None`) expiry raises a `TypeError`. -/
def is_token_expired : M Bool := do
  let o ← askOracle
  let t ← getTeams
  match t.access_token_expiry with
  | none => raiseM .typeError
  | some e => pure (decide (o.now < e))

/-- `set_account_data` as a pure state transformer: unconditionally
overwrites the token fields with the dict's entries (defaulting to `False`
for the tokens and `0` for `expires_in`) and clears `need_login`. -/
def set_account_data (t : Teams) (acct : MsalAcct) (now : Int) : Teams :=
  { t with
    need_login := false
    access_token := optToPy acct.access_token
    refresh_token := optToPy acct.refresh_token
    access_token_expiry := some (now + acct.expires_in.getD 0) }

/-- `set_account_data` in the effect monad (reads the clock). -/
def set_account_dataM (acct : MsalAcct) : M Unit := do
  let o ← askOracle
  let t ← getTeams
  setTeams (set_account_data t acct o.now)

/-- `refresh_access_token`: unpack the client, and when the refresh token
is truthy call the MSAL refresh; a truthy response stores the account data
and returns `True`, everything else returns `False`. -/
def refresh_access_token : M Bool := do
  let _meta ← clientUnpack
  let t ← getTeams
  if t.refresh_token.truthy then do
    callNet .msalRefresh
    let o ← askOracle
    match o.refreshResp with
    | some acct => do
      set_account_dataM acct
      pure true
    | none => pure false
  else pure false

/-- `logon_with_credentials`: unpack the client, call the MSAL
username/password acquisition; a truthy response stores the account data
and returns the (new) `access_token`, a falsy one returns `False`. -/
def logon_with_credentials : M PyStr := do
  let _meta ← clientUnpack
  callNet .msalCred
  let o ← askOracle
  match o.logonCred with
  | some acct => do
    set_account_dataM acct
    let t ← getTeams
    pure t.access_token
  | none => pure .pyfalse

/-- `logon_with_devicecode`: unpack the client, initiate the device flow;
a truthy flow polls for the token, and a truthy token response stores the
account data and returns the new `access_token`; all other paths return
`False`. -/
def logon_with_devicecode : M PyStr := do
  let _meta ← clientUnpack
  callNet .msalDeviceInit
  let o ← askOracle
  match o.deviceFlow with
  | some _ => do
    callNet .msalDevicePoll
    match o.logonDevice with
    | some acct => do
      set_account_dataM acct
      let t ← getTeams
      pure t.access_token
    | none => pure .pyfalse
  | none => pure .pyfalse

/-- `get_access_token`: when `need_login`, run the account-kind specific
login flow; then the `if not self.is_token_expired` guard decides whether
to attempt a refresh; finally return whatever `self.access_token` holds. -/
def get_access_token : M PyStr := do
  let t ← getTeams
  if t.need_login then do
    let a1 ← account_type
    if a1 == .one then do
      let _ ← logon_with_devicecode
      pure ()
    else pure ()
    let a2 ← account_type
    if a2 == .two then do
      let _ ← logon_with_credentials
      pure ()
    else pure ()
  else pure ()
  let expired ← is_token_expired
  if !expired then do
    let _ ← refresh_access_token
    pure ()
  else pure ()
  let t' ← getTeams
  pure t'.access_token

/-- The `silent_token` property: cache hit, else unpack the client, fetch
the enrolled accounts and index the first one (raising `IndexError` on an
empty list before any acquisition request is issued), call the silent
acquisition (a `None` result makes the following `.get` raise an
`AttributeError`), cache and return the `access_token` field or `False`. -/
def silent_token : M PyStr := do
  let t ← getTeams
  if t.silent_token_cache.truthy then
    pure t.silent_token_cache
  else do
    let _meta ← clientUnpack
    let o ← askOracle
    match o.accounts with
    | [] => raiseM .indexError
    | _ :: _ => do
      callNet .msalSilent
      match o.silentResp with
      | none => raiseM .attributeError
      | some acct => do
        let tok := optToPy acct.access_token
        let t' ← getTeams
        setTeams { t' with silent_token_cache := tok }
        pure tok

/-- The `x_skypetoken` property: obtain an access token, switch to the
silent token for personal accounts, and when the chosen token is truthy
POST to the authz broker (with `self.silent_token` in the header) and
extract the skype token from either of the two response shapes; all
remaining paths return `None`. -/
def x_skypetoken : M PyStr := do
  let tok0 ← get_access_token
  let a ← account_type
  let tok ← if a == .one then silent_token else pure tok0
  if tok.truthy then do
    let _meta ← clientUnpack
    let _st ← silent_token
    callNet .authzPost
    let o ← askOracle
    match o.authz with
    | .transportError => raiseM .requestError
    | .response status body =>
      if status < 400 then
        match body with
        | .malformed => raiseM .jsonError
        | .authzObj skypeOuter tokensOuter =>
          match skypeOuter with
          | some (some v) => pure (.pystr v)
          | _ =>
            match tokensOuter with
            | some (some v) => pure (.pystr v)
            | _ => pure .pynone
      else pure .pynone
  else pure .pynone

/-- The prefix of `set_activity` before the PUT: build the authorization
header from `get_access_token`, add the consumer headers (evaluating
`x_skypetoken`) and pick the consumer host when `account_type == 1`, pick
the organizational host when `account_type == 2`; the returned pair is the
header value and the (possibly still unbound) `domaine` local. -/
def presencePre : M (String × Option String) := do
  let tok ← get_access_token
  let auth := "Bearer " ++ tok.render
  let a1 ← account_type
  let dom1 ← if a1 == .one then do
      let _sk ← x_skypetoken
      pure (some "presence.teams.live.com")
    else pure (none : Option String)
  let a2 ← account_type
  let dom := if a2 == .two then some "presence.teams.microsoft.com" else dom1
  pure (auth, dom)

/-- The terminal block of `set_activity`: reading an unbound `domaine`
raises; otherwise the PUT is issued and `activity_request.ok`
(status below 400) decides the returned boolean, a transport failure of
the PUT raising instead. -/
def putBlock (p : String × Option String) : M Bool := fun o t =>
  match p.2 with
  | none => ⟨[], t, .error .unboundLocal⟩
  | some host =>
    match o.presencePut with
    | .transportError => ⟨[.presencePutCall p.1 host], t, .error .requestError⟩
    | .response status _ => ⟨[.presencePutCall p.1 host], t, .ok (decide (status < 400))⟩

/-- `set_activity(activity, availability)`: the header/host prefix
followed by the PUT and the `ok` check.  The activity strings only enter
the request body, which no modelled behaviour depends on. -/
def set_activity : M Bool := Mbind presencePre putBlock

/-- A benign default oracle, overridden per scenario. -/
def baseOracle : Oracle :=
  { now := 1000
    idp := .response 200 (.obj (some "OrgId:contoso"))
    fed := .response 200 (.fedObj (some "abc-123"))
    logonCred := some ⟨some "tokA", some "refA", some 3600⟩
    deviceFlow := some ()
    logonDevice := some ⟨some "tokD", some "refD", some 3600⟩
    refreshResp := some ⟨some "tokR", some "refR", some 3600⟩
    accounts := [()]
    silentResp := some ⟨some "tokS", none, some 3600⟩
    authz := .response 200 (.authzObj none (some (some "tok123")))
    presencePut := .response 200 () }

/-- A fresh organizational-looking session. -/
def tFresh : Teams := initTeams "user@contoso.com" "pw"

/-- Does a call belong to one of the two login flows (password or device
code)? -/
def isLoginCall : NetCall → Bool
  | .msalCred => true
  | .msalDeviceInit => true
  | .msalDevicePoll => true
  | _ => false

/-- The network calls issued by a sequence of `get_access_token`
invocations, each step run against its own oracle from the state the
previous step left behind. -/
def runCalls : List Oracle → Teams → List NetCall
  | [], _ => []
  | o :: os, t => (get_access_token o t).calls ++ runCalls os (get_access_token o t).st

/-- Predicate `200 ≤ s < 300`: the claim's "2xx range". -/
def inTwoHundreds (s : Nat) : Bool := decide (200 ≤ s) && decide (s < 300)

/-- Oracle of the C1 counterexample run: healthy organizational login, the
presence PUT answered with status 300. -/
def oracle1a : Oracle := { baseOracle with presencePut := .response 300 () }

/-- Oracle of the C1 transport-failure run: the presence PUT fails at the
transport layer. -/
def oracle1b : Oracle := { baseOracle with presencePut := .transportError }

/-- The token state right after a successful login at time 1000 with
`expires_in = 3600`. -/
def teams2 : Teams := set_account_data tFresh ⟨some "tokA", some "refA", some 3600⟩ 1000

/-- A logged-in organizational session holding a fresh token (expiry 4600)
and a refresh token. -/
def teams3 : Teams :=
  { tFresh with
    account_type_cache := .two
    client_cache := some (.orgMeta (.pystr "abc-123"))
    need_login := false
    access_token := .pystr "tokA"
    refresh_token := .pystr "refA"
    access_token_expiry := some 4600 }

/-- Oracle whose classifier call fails at the transport layer. -/
def oracle5 : Oracle := { baseOracle with idp := .transportError }

/-- A session with the OAuth client already cached. -/
def teams6 : Teams := { tFresh with client_cache := some (.orgMeta (.pystr "abc-123")) }

/-- Oracle whose credentials login answers with a truthy error dict that
carries no token fields (the shape MSAL returns on a failed login). -/
def oracle6 : Oracle := { baseOracle with logonCred := some ⟨none, none, none⟩ }

/-- Oracle of the C4 run: the classifier answers HTTP 500, so the account
kind resolves to Unknown (`False`). -/
def oracle4 : Oracle := { baseOracle with idp := .response 500 .falsyJson }

/-- Oracle of the C7 run: organizational classification and tenant lookup
succeed but the credentials login returns a truthy error dict without an
access token. -/
def oracle7 : Oracle := { baseOracle with logonCred := some ⟨none, none, none⟩ }

/-- A personal session with the OAuth client cached. -/
def teams8 : Teams := { tFresh with client_cache := some .personalMeta }

/-- Oracle with zero enrolled MSAL accounts. -/
def oracle8 : Oracle := { baseOracle with accounts := [] }

/-- Claim C2 (code bug): immediately after a login at time 1000 with
`expires_in = 3600`, `is_token_expired` evaluates to `True`, and once the
clock passes the stored expiry (time 5000 > 4600) it evaluates to `False`
— exactly inverted with respect to the claim and to the property's own
docstring, because the source computes `int(time.time()) < expiry`. -/
theorem C2_is_token_expired_inverted :
    (is_token_expired { baseOracle with now := 1000 } teams2).out = .ok true ∧
    (is_token_expired { baseOracle with now := 5000 } teams2).out = .ok false := ⟨rfl, rfl⟩

/-- Claim C4 (code bug): with the classifier answering HTTP 500 the
account kind is Unknown, and `set_activity` on a fresh session then raises
a `TypeError` (the `int(time.time()) < None` comparison in
`is_token_expired`) instead of returning `False`; the only network calls
made before the crash are the two classifier GETs — no login, token or
presence request is issued. -/
theorem C4_unknown_account_raises :
    (set_activity oracle4 tFresh).out = .error .typeError ∧
    (set_activity oracle4 tFresh).calls = [.idpGet, .idpGet] := ⟨rfl, rfl⟩

/-- Claim C7 (code bug): after an organizational login that returned a
truthy error dict with no access token, `set_activity` still reaches the
presence PUT and sends it with the literal header value `Bearer False` —
a presence update attempted with an empty access token. -/
theorem C7_put_with_empty_token :
    (set_activity oracle7 tFresh).calls =
      [.idpGet, .fedGet, .msalCred,
       .presencePutCall "Bearer False" "presence.teams.microsoft.com"] ∧
    (set_activity oracle7 tFresh).out = .ok true := ⟨rfl, rfl⟩

/-- Claim C8 (code bug): with zero enrolled accounts, `silent_token`
raises an `IndexError` from `accounts[0]` (before any acquisition request
is issued) instead of failing cleanly with a failure value. -/
theorem C8_empty_accounts_fault :
    (silent_token oracle8 teams8).out = .error .indexError ∧
    (silent_token oracle8 teams8).calls = [] := ⟨rfl, rfl⟩

/-- Claim C1 counterexample: a run whose terminal PUT completes with
status 300 — outside the 2xx range — still returns `True` (because the
source tests `activity_request.ok`, i.e. status < 400), and a run whose
PUT fails at the transport layer raises instead of returning `False`. -/
theorem C1_counterexample :
    (set_activity oracle1a tFresh).out = .ok true ∧ inTwoHundreds 300 = false ∧
    (set_activity oracle1b tFresh).out = .error .requestError := ⟨rfl, rfl, rfl⟩

/-- Claim C3 counterexample: in a logged-in session holding a truthy
refresh token, at time 1000 — strictly before the stored expiry 4600 —
`get_access_token` makes no network call at all: no silent refresh is
attempted while the expiry has not yet been reached. -/
theorem C3_counterexample :
    (get_access_token { baseOracle with now := 1000 } teams3).calls = [] ∧
    teams3.refresh_token.truthy = true ∧ (1000 : Int) < 4600 := ⟨rfl, rfl, by norm_num⟩

/-- Claim C5 counterexample: a transport failure of the classification
call makes `account_type` raise the HTTP library's exception instead of
yielding Unknown. -/
theorem C5_counterexample :
    (account_type oracle5 tFresh).out = .error .requestError ∧
    (account_type oracle5 tFresh).st = tFresh := ⟨rfl, rfl⟩

/-- Claim C6 counterexample: a login attempt answered by a truthy error
dict carrying no tokens (a failed login — the returned value is `False`)
still overwrites the TokenSet: `need_login` flips to `False`, both tokens
become `False` and the expiry becomes the current time, where the session
previously held no expiry at all. -/
theorem C6_counterexample :
    oracle6.logonCred = some ⟨none, none, none⟩ ∧
    teams6.access_token_expiry = none ∧
    (logon_with_credentials oracle6 teams6).out = .ok .pyfalse ∧
    (logon_with_credentials oracle6 teams6).st.access_token_expiry = some 1000 ∧
    (logon_with_credentials oracle6 teams6).st.need_login = false :=
  ⟨rfl, rfl, rfl, rfl, rfl⟩

/-- If a bind produced a value, its first stage produced one and the
continuation, run from the intermediate state, produced the final one. -/
theorem Mbind_out_ok {α β : Type} (m : M α) (f : α → M β) (o : Oracle) (t : Teams) (b : β)
    (h : (Mbind m f o t).out = .ok b) :
    ∃ a, (m o t).out = .ok a ∧ (f a o (m o t).st).out = .ok b := by
  unfold Mbind at h
  rcases hr : m o t with ⟨cs, st, out⟩
  rw [hr] at h
  rcases out with e | a
  · simp at h
  · exact ⟨a, rfl, by simpa using h⟩

/-- Claim C1 (amended, proved): whenever `set_activity` completes without
an exception, the terminal PUT was answered with some status `s` and the
returned boolean is exactly `s < 400` (the HTTP library's `ok` predicate,
not the 2xx range); and when the PUT fails at the transport layer,
`set_activity` never returns a boolean — the exception propagates. -/
theorem C1_set_activity_ok_iff_status_below_400 (o : Oracle) (t : Teams) :
    (∀ r : Bool, (set_activity o t).out = .ok r →
      ∃ s, o.presencePut = .response s () ∧ r = decide (s < 400)) ∧
    (o.presencePut = .transportError →
      ∀ r : Bool, (set_activity o t).out ≠ .ok r) := by
  have key : ∀ r : Bool, (set_activity o t).out = .ok r →
      ∃ s, o.presencePut = .response s () ∧ r = decide (s < 400) := by
    intro r h
    unfold set_activity at h
    obtain ⟨p, _, h2⟩ := Mbind_out_ok _ _ _ _ _ h
    rcases p with ⟨auth, dom⟩
    rcases dom with _ | host
    · simp [putBlock] at h2
    · rcases hput : o.presencePut with _ | ⟨s, u⟩
      · simp [putBlock, hput] at h2
      · cases u
        refine ⟨s, rfl, ?_⟩
        simp [putBlock, hput] at h2
        exact h2.symm
  refine ⟨key, fun hput r h => ?_⟩
  obtain ⟨s, hs, _⟩ := key r h
  rw [hput] at hs
  exact HttpResult.noConfusion hs

/-- Claim C1 witness: the amended statement evaluated on the concrete
status-300 run. -/
theorem C1_witness :
    ∃ s, oracle1a.presencePut = .response s () ∧ true = decide (s < 400) :=
  (C1_set_activity_ok_iff_status_below_400 oracle1a tFresh).1 true rfl

/-- Claim C10 (confirmed): `set_account_data` unconditionally overwrites
the whole TokenSet — `need_login` becomes `False`, the two tokens become
the dict's values or `False` when absent, the expiry becomes the current
time plus `expires_in` (defaulting to 0) — and in particular a response
lacking a `refresh_token` discards the previously held refresh token. -/
theorem C10_set_account_data_overwrites (t : Teams) (acct : MsalAcct) (now : Int) :
    set_account_data t acct now =
      { t with
        need_login := false
        access_token := optToPy acct.access_token
        refresh_token := optToPy acct.refresh_token
        access_token_expiry := some (now + acct.expires_in.getD 0) } ∧
    (acct.refresh_token = none → (set_account_data t acct now).refresh_token = .pyfalse) :=
  ⟨rfl, fun h => by simp [set_account_data, optToPy, h]⟩

/-- Claim C10 witness: the overwrite evaluated on a token response that
lacks a refresh token, starting from a session that held none either. -/
theorem C10_witness :
    set_account_data tFresh ⟨some "a", none, none⟩ 7 =
      { tFresh with
        need_login := false
        access_token := optToPy (some "a")
        refresh_token := optToPy none
        access_token_expiry := some (7 + Option.getD none 0) } ∧
    (set_account_data tFresh ⟨some "a", none, none⟩ 7).refresh_token = .pyfalse :=
  ⟨(C10_set_account_data_overwrites tFresh ⟨some "a", none, none⟩ 7).1,
   (C10_set_account_data_overwrites tFresh ⟨some "a", none, none⟩ 7).2 rfl⟩

/-- A logged-in session shape: client cached, `need_login` cleared, an
expiry stored, and a (string) refresh token held. -/
def loggedInState (email pw : String) (cache : AcctTy) (meta : AuthMeta)
    (stc atok : PyStr) (rs : String) (e : Int) : Teams :=
  ⟨email, pw, cache, some meta, stc, false, atok, .pystr rs, some e⟩

/-- Claim C3 (amended, proved): on a logged-in session holding a refresh
token, every `get_access_token` call compares the clock against the
stored expiry, and a silent refresh through the refresh token is
attempted exactly when the expiry has been reached or passed (`now ≥
expiry`) — not when it has not yet been reached: before the expiry the
call issues no request at all. -/
theorem C3_refresh_exactly_when_expiry_reached (email pw : String) (cache : AcctTy)
    (meta : AuthMeta) (stc atok : PyStr) (rs : String) (hrs : rs ≠ "") (e : Int)
    (o : Oracle) :
    (get_access_token o (loggedInState email pw cache meta stc atok rs e)).calls
      = (if o.now < e then [] else [NetCall.msalRefresh]) ∧
    (NetCall.msalRefresh ∈
        (get_access_token o (loggedInState email pw cache meta stc atok rs e)).calls
      ↔ e ≤ o.now) := by
  have hb : (rs == "") = false := by simpa using hrs
  have hcalls :
      (get_access_token o (loggedInState email pw cache meta stc atok rs e)).calls
        = (if o.now < e then [] else [NetCall.msalRefresh]) := by
    by_cases hne : o.now < e
    · simp [loggedInState, get_access_token, is_token_expired, refresh_access_token,
        clientUnpack, client, set_account_dataM, set_account_data, bindM_def, pureM_def,
        Mbind, Mpure, getTeams, askOracle, callNet, setTeams, raiseM, hne, PyStr.truthy, hb]
    · cases hrr : o.refreshResp <;>
        simp [loggedInState, get_access_token, is_token_expired, refresh_access_token,
          clientUnpack, client, set_account_dataM, set_account_data, bindM_def, pureM_def,
          Mbind, Mpure, getTeams, askOracle, callNet, setTeams, raiseM, hne, hrr,
          PyStr.truthy, hb]
  refine ⟨hcalls, ?_⟩
  rw [hcalls]
  by_cases hne : o.now < e
  · simp [hne, not_le.mpr hne]
  · simp [hne, le_of_not_lt hne]

/-- Claim C3 witness: the amended statement evaluated on a fresh-token
session at time 1000 with expiry 4600. -/
theorem C3_witness :
    (get_access_token { baseOracle with now := 1000 }
        (loggedInState "u" "p" .two (.orgMeta (.pystr "abc")) .pynone (.pystr "tokA")
          "refA" 4600)).calls
      = (if ({ baseOracle with now := 1000 } : Oracle).now < 4600 then []
         else [NetCall.msalRefresh]) ∧
    (NetCall.msalRefresh ∈
        (get_access_token { baseOracle with now := 1000 }
          (loggedInState "u" "p" .two (.orgMeta (.pystr "abc")) .pynone (.pystr "tokA")
            "refA" 4600)).calls
      ↔ (4600 : Int) ≤ ({ baseOracle with now := 1000 } : Oracle).now) :=
  C3_refresh_exactly_when_expiry_reached "u" "p" .two (.orgMeta (.pystr "abc")) .pynone
    (.pystr "tokA") "refA" (by decide) 4600 { baseOracle with now := 1000 }

/-- Claim C5 (amended, proved): with an unresolved cache, the classifier
maps a completed sub-400 response as claimed — `"MSAccount"` to Personal
(1), a value containing `"OrgId"` to Organizational (2), an absent or
falsy `account` field and a falsy JSON body to Unknown (`False`), any
other truthy value to Unknown (`None`) — and an HTTP error status (≥ 400)
also yields Unknown (`False`); but a transport failure raises the HTTP
library's exception and a malformed body of a sub-400 response raises a
JSON error: those failures do not yield Unknown. -/
theorem C5_classifier_characterization (t : Teams) (h : t.account_type_cache = .noneV)
    (o : Oracle) :
    (o.idp = .transportError → (account_type o t).out = .error .requestError) ∧
    (∀ s b, o.idp = .response s b → 400 ≤ s → (account_type o t).out = .ok .falseV) ∧
    (∀ s, s < 400 → o.idp = .response s .malformed →
      (account_type o t).out = .error .jsonError) ∧
    (∀ s, s < 400 → o.idp = .response s .falsyJson → (account_type o t).out = .ok .falseV) ∧
    (∀ s, s < 400 → o.idp = .response s (.obj none) → (account_type o t).out = .ok .falseV) ∧
    (∀ s, s < 400 → o.idp = .response s (.obj (some "")) →
      (account_type o t).out = .ok .falseV) ∧
    (∀ s, s < 400 → o.idp = .response s (.obj (some "MSAccount")) →
      (account_type o t).out = .ok .one) ∧
    (∀ s a, s < 400 → o.idp = .response s (.obj (some a)) → a ≠ "" →
      a ≠ "MSAccount" → hasSubstr "OrgId" a = true → (account_type o t).out = .ok .two) ∧
    (∀ s a, s < 400 → o.idp = .response s (.obj (some a)) → a ≠ "" →
      a ≠ "MSAccount" → hasSubstr "OrgId" a = false → (account_type o t).out = .ok .noneV) := by
  refine ⟨?_, ?_, ?_, ?_, ?_, ?_, ?_, ?_, ?_⟩
  · intro hi
    simp [account_type, bindM_def, pureM_def, Mbind, Mpure, getTeams, askOracle, callNet,
      setTeams, raiseM, h, AcctTy.truthy, hi]
  · intro s b hi hs
    have hns : ¬ (s < 400) := not_lt.mpr hs
    simp [account_type, bindM_def, pureM_def, Mbind, Mpure, getTeams, askOracle, callNet,
      setTeams, raiseM, h, AcctTy.truthy, hi, hns]
  · intro s hs hi
    simp [account_type, bindM_def, pureM_def, Mbind, Mpure, getTeams, askOracle, callNet,
      setTeams, raiseM, h, AcctTy.truthy, hi, hs]
  · intro s hs hi
    simp [account_type, bindM_def, pureM_def, Mbind, Mpure, getTeams, askOracle, callNet,
      setTeams, raiseM, h, AcctTy.truthy, hi, hs]
  · intro s hs hi
    simp [account_type, bindM_def, pureM_def, Mbind, Mpure, getTeams, askOracle, callNet,
      setTeams, raiseM, h, AcctTy.truthy, hi, hs]
  · intro s hs hi
    simp [account_type, bindM_def, pureM_def, Mbind, Mpure, getTeams, askOracle, callNet,
      setTeams, raiseM, h, AcctTy.truthy, hi, hs]
  · intro s hs hi
    simp [account_type, bindM_def, pureM_def, Mbind, Mpure, getTeams, askOracle, callNet,
      setTeams, raiseM, h, AcctTy.truthy, hi, hs]
  · intro s a hs hi ha1 ha2 horg
    have hb1 : (a == "") = false := by simpa using ha1
    have hb2 : (a == "MSAccount") = false := by simpa using ha2
    simp [account_type, bindM_def, pureM_def, Mbind, Mpure, getTeams, askOracle, callNet,
      setTeams, raiseM, h, AcctTy.truthy, hi, hs, hb1, hb2, horg, ha1, ha2]
  · intro s a hs hi ha1 ha2 horg
    have hb1 : (a == "") = false := by simpa using ha1
    have hb2 : (a == "MSAccount") = false := by simpa using ha2
    simp [account_type, bindM_def, pureM_def, Mbind, Mpure, getTeams, askOracle, callNet,
      setTeams, raiseM, h, AcctTy.truthy, hi, hs, hb1, hb2, horg, ha1, ha2]

/-- Claim C5 witness: the `"MSAccount"` conjunct evaluated on a concrete
200 response. -/
theorem C5_witness :
    (account_type { baseOracle with idp := .response 200 (.obj (some "MSAccount")) }
      tFresh).out = .ok .one :=
  (C5_classifier_characterization tFresh rfl
      { baseOracle with idp := .response 200 (.obj (some "MSAccount")) }
    ).2.2.2.2.2.2.1 200 (by decide) rfl

/-- Claim C6 (amended, proved): with the OAuth client available, both
login flows leave the whole session state — TokenSet included — unchanged
exactly when the MSAL call (or the device flow initiation) returns a
falsy result; but any truthy response dict, whether or not it carries a
real access token, is treated as success: `set_account_data` overwrites
the TokenSet (absent fields becoming `False` and the expiry the current
time plus 0) and the call returns the stored `access_token`, which is
`False` rather than a real token for an error response. -/
theorem C6_logon_tokenset (t : Teams) (meta : AuthMeta) (h : t.client_cache = some meta)
    (o : Oracle) :
    (o.logonCred = none → logon_with_credentials o t = ⟨[.msalCred], t, .ok .pyfalse⟩) ∧
    (∀ acct, o.logonCred = some acct →
      logon_with_credentials o t =
        ⟨[.msalCred], set_account_data t acct o.now, .ok (optToPy acct.access_token)⟩) ∧
    (o.deviceFlow = none → logon_with_devicecode o t = ⟨[.msalDeviceInit], t, .ok .pyfalse⟩) ∧
    (∀ u, o.deviceFlow = some u → o.logonDevice = none →
      logon_with_devicecode o t = ⟨[.msalDeviceInit, .msalDevicePoll], t, .ok .pyfalse⟩) ∧
    (∀ u acct, o.deviceFlow = some u → o.logonDevice = some acct →
      logon_with_devicecode o t =
        ⟨[.msalDeviceInit, .msalDevicePoll], set_account_data t acct o.now,
         .ok (optToPy acct.access_token)⟩) := by
  refine ⟨?_, ?_, ?_, ?_, ?_⟩
  · intro hi
    simp [logon_with_credentials, clientUnpack, client, set_account_dataM, set_account_data,
      bindM_def, pureM_def, Mbind, Mpure, getTeams, askOracle, callNet, setTeams, raiseM,
      h, hi]
  · intro acct hi
    simp [logon_with_credentials, clientUnpack, client, set_account_dataM, set_account_data,
      bindM_def, pureM_def, Mbind, Mpure, getTeams, askOracle, callNet, setTeams, raiseM,
      h, hi, optToPy]
  · intro hi
    simp [logon_with_devicecode, clientUnpack, client, set_account_dataM, set_account_data,
      bindM_def, pureM_def, Mbind, Mpure, getTeams, askOracle, callNet, setTeams, raiseM,
      h, hi]
  · intro u hu hi
    simp [logon_with_devicecode, clientUnpack, client, set_account_dataM, set_account_data,
      bindM_def, pureM_def, Mbind, Mpure, getTeams, askOracle, callNet, setTeams, raiseM,
      h, hu, hi]
  · intro u acct hu hi
    simp [logon_with_devicecode, clientUnpack, client, set_account_dataM, set_account_data,
      bindM_def, pureM_def, Mbind, Mpure, getTeams, askOracle, callNet, setTeams, raiseM,
      h, hu, hi, optToPy]

/-- Claim C6 witness: the truthy-error-dict conjunct evaluated on the
concrete failed-login run. -/
theorem C6_witness :
    logon_with_credentials oracle6 teams6 =
      ⟨[.msalCred], set_account_data teams6 ⟨none, none, none⟩ oracle6.now,
       .ok (optToPy (none : Option String))⟩ :=
  (C6_logon_tokenset teams6 (.orgMeta (.pystr "abc-123")) rfl oracle6).2.1
    ⟨none, none, none⟩ rfl

/-- A computation neither issues a login-flow call nor re-arms
`need_login` when run from a state where `need_login` is already
cleared. -/
def NoRelogin {α : Type} (m : M α) : Prop :=
  ∀ o t, t.need_login = false →
    (m o t).st.need_login = false ∧ ∀ c ∈ (m o t).calls, isLoginCall c = false

theorem nr_pure {α : Type} (a : α) : NoRelogin (pure a : M α) := by
  intro o t ht
  exact ⟨ht, by simp [pureM_def, Mpure]⟩

theorem nr_raise {α : Type} (e : PyErr) : NoRelogin (raiseM e : M α) := by
  intro o t ht
  exact ⟨ht, by simp [raiseM]⟩

theorem nr_ask : NoRelogin askOracle := by
  intro o t ht
  exact ⟨ht, by simp [askOracle]⟩

theorem nr_call {c : NetCall} (h : isLoginCall c = false) : NoRelogin (callNet c) := by
  intro o t ht
  constructor
  · simpa [callNet] using ht
  · simp [callNet, h]

theorem nr_set {t' : Teams} (h : t'.need_login = false) : NoRelogin (setTeams t') := by
  intro o t ht
  exact ⟨h, by simp [setTeams]⟩

theorem nr_bind {α β : Type} {m : M α} {f : α → M β} (hm : NoRelogin m)
    (hf : ∀ a, NoRelogin (f a)) : NoRelogin (m >>= f) := by
  intro o t ht
  rw [bindM_def]
  have hm' := hm o t ht
  unfold Mbind
  rcases hr : m o t with ⟨cs, st, out⟩
  rw [hr] at hm'
  rcases out with e | a
  · exact hm'
  · have hf' := hf a o st hm'.1
    refine ⟨hf'.1, ?_⟩
    intro c hc
    rcases List.mem_append.mp hc with h1 | h2
    · exact hm'.2 c h1
    · exact hf'.2 c h2

theorem nr_bind_get {α : Type} {f : Teams → M α}
    (hf : ∀ a : Teams, a.need_login = false → NoRelogin (f a)) :
    NoRelogin (getTeams >>= f) := by
  intro o t ht
  rw [bindM_def]
  unfold Mbind getTeams
  have hf' := hf t ht o t ht
  refine ⟨hf'.1, ?_⟩
  intro c hc
  simp only [List.nil_append] at hc
  exact hf'.2 c hc

theorem nr_ite {α : Type} {c : Prop} [Decidable c] {m1 m2 : M α} (h1 : NoRelogin m1)
    (h2 : NoRelogin m2) : NoRelogin (if c then m1 else m2) := by
  by_cases hc : c
  · simpa [hc] using h1
  · simpa [hc] using h2

theorem nr_account_type : NoRelogin account_type := by
  unfold account_type
  refine nr_bind_get (fun t ht => ?_)
  refine nr_ite (nr_pure _) ?_
  refine nr_bind (nr_call rfl) (fun _ => ?_)
  refine nr_bind nr_ask (fun o => ?_)
  rcases o.idp with _ | ⟨s, b⟩
  · exact nr_raise _
  · refine nr_ite ?_ (nr_pure _)
    rcases b with _ | _ | acct
    · exact nr_raise _
    · exact nr_pure _
    · rcases acct with _ | s'
      · exact nr_pure _
      · refine nr_ite (nr_pure _) ?_
        exact nr_bind (nr_set ht) (fun _ => nr_pure _)

theorem nr_tenant_id : NoRelogin tenant_id := by
  unfold tenant_id
  refine nr_bind_get (fun t ht => ?_)
  refine nr_ite ?_ (nr_pure _)
  refine nr_bind (nr_call rfl) (fun _ => ?_)
  refine nr_bind nr_ask (fun o => ?_)
  rcases o.fed with _ | ⟨s, b⟩
  · exact nr_raise _
  · refine nr_ite ?_ (nr_pure _)
    rcases b with _ | tid
    · exact nr_raise _
    · exact nr_pure _

theorem nr_auth_meta : NoRelogin authentication_metadata := by
  unfold authentication_metadata
  refine nr_bind nr_account_type (fun a => ?_)
  rcases a with _ | _ | _ | _
  · exact nr_pure _
  · exact nr_bind nr_tenant_id (fun tid => nr_pure _)
  · exact nr_pure _
  · exact nr_pure _

theorem nr_client : NoRelogin client := by
  unfold client
  refine nr_bind_get (fun t ht => ?_)
  rcases t.client_cache with _ | c
  · refine nr_bind nr_auth_meta (fun meta => ?_)
    refine nr_ite ?_ (nr_pure _)
    refine nr_bind_get (fun t' ht' => ?_)
    exact nr_bind (nr_set ht') (fun _ => nr_pure _)
  · exact nr_pure _

theorem nr_clientUnpack : NoRelogin clientUnpack := by
  unfold clientUnpack
  refine nr_bind nr_client (fun c => ?_)
  rcases c with _ | meta
  · exact nr_raise _
  · exact nr_pure _

theorem nr_is_token_expired : NoRelogin is_token_expired := by
  unfold is_token_expired
  refine nr_bind nr_ask (fun o => ?_)
  refine nr_bind_get (fun t ht => ?_)
  rcases t.access_token_expiry with _ | e
  · exact nr_raise _
  · exact nr_pure _

theorem nr_set_account_dataM (acct : MsalAcct) : NoRelogin (set_account_dataM acct) := by
  unfold set_account_dataM
  refine nr_bind nr_ask (fun o => ?_)
  refine nr_bind_get (fun t ht => ?_)
  exact nr_set rfl

theorem nr_refresh : NoRelogin refresh_access_token := by
  unfold refresh_access_token
  refine nr_bind nr_clientUnpack (fun _ => ?_)
  refine nr_bind_get (fun t ht => ?_)
  refine nr_ite ?_ (nr_pure _)
  refine nr_bind (nr_call rfl) (fun _ => ?_)
  refine nr_bind nr_ask (fun o => ?_)
  rcases o.refreshResp with _ | acct
  · exact nr_pure _
  · exact nr_bind (nr_set_account_dataM _) (fun _ => nr_pure _)

theorem nr_get_access_token : NoRelogin get_access_token := by
  unfold get_access_token
  refine nr_bind_get (fun t ht => ?_)
  simp only [ht, Bool.false_eq_true, if_false]
  refine nr_bind (nr_pure _) (fun _ => ?_)
  refine nr_bind nr_is_token_expired (fun expired => ?_)
  refine nr_ite ?_ ?_
  · exact nr_bind nr_refresh (fun _ => nr_bind (nr_pure _)
      (fun _ => nr_bind_get (fun t' ht' => nr_pure _)))
  · exact nr_bind (nr_pure _) (fun _ => nr_bind_get (fun t' ht' => nr_pure _))

/-- Claim C9 (confirmed): every successful login or refresh runs
`set_account_data`, which clears `need_login`; a `get_access_token` call
issues a login-flow request (password or device code) only when
`need_login` is still set; and from any state with `need_login` cleared,
no sequence of further `get_access_token` calls — whatever every later
oracle answers, including failing refreshes — ever issues a login-flow
request again. -/
theorem C9_login_only_before_first_success :
    (∀ t acct now, (set_account_data t acct now).need_login = false) ∧
    (∀ o t c, c ∈ (get_access_token o t).calls → isLoginCall c = true →
      t.need_login = true) ∧
    (∀ t, t.need_login = false → ∀ os c, c ∈ runCalls os t → isLoginCall c = false) := by
  have key := nr_get_access_token
  refine ⟨fun t acct now => rfl, ?_, ?_⟩
  · intro o t c hc hl
    cases hnl : t.need_login
    · have h2 := (key o t hnl).2 c hc
      rw [hl] at h2
      exact Bool.noConfusion h2
    · rfl
  · intro t ht os
    induction os generalizing t with
    | nil => intro c hc; simp [runCalls] at hc
    | cons o os ih =>
      intro c hc
      simp only [runCalls] at hc
      rcases List.mem_append.mp hc with h1 | h2
      · exact (key o t ht).2 c h1
      · exact ih (get_access_token o t).st (key o t ht).1 c h2

/-- A logged-in session whose token expired at time 10. -/
def teamsW : Teams :=
  loggedInState "u" "p" .two (.orgMeta (.pystr "abc")) .pynone (.pystr "tok") "ref" 10

/-- An oracle whose clock (100) is past that expiry. -/
def oracleW : Oracle := { baseOracle with now := 100 }

/-- Claim C9 witness: a concrete post-login state run for one step — the
step's only call is the refresh, which is not a login call. -/
theorem C9_witness :
    (set_account_data tFresh ⟨some "t", some "r", some 5⟩ 0).need_login = false ∧
    isLoginCall NetCall.msalRefresh = false :=
  ⟨C9_login_only_before_first_success.1 tFresh ⟨some "t", some "r", some 5⟩ 0,
   C9_login_only_before_first_success.2.2 teamsW rfl [oracleW] NetCall.msalRefresh
     (by decide)⟩
